import Mathlib

set_option maxHeartbeats 1000000

/- Shallow embedding of the neo4j-aura-controller reconciliation logic:
   internal/controllers/aurainstance_controller.go together with the
   api/v1beta1 AuraInstance types. Remote HTTP responses and the local
   object store are supplied through an explicit environment, and the
   upstream and store side effects a pass performs are collected in a
   trace list. -/

/-- SecretReference from api/v1beta1 (credential store entry reference). -/
structure SecretRef where
  name : String
  clientIDKey : String
  clientSecretKey : String
  deriving DecidableEq, Repr

/-- LocalObjectReference from api/v1beta1. -/
structure LocalObjectReference where
  name : String
  deriving DecidableEq, Repr

/-- AuraInstanceSpec from api/v1beta1. Durations are modelled in nanoseconds. -/
structure AuraInstanceSpec where
  tier : String
  region : String
  cloudProvider : String
  memory : String
  neo4jVersion : String
  tenantID : String
  secret : SecretRef
  connectionSecret : LocalObjectReference
  vectorOptimized : Bool
  graphAnalyticsPlugin : Bool
  suspend : Bool
  interval : Option Nat
  deriving DecidableEq, Repr

/-- metav1.Condition, fields used by setResourceCondition. -/
structure Condition where
  type : String
  status : String
  reason : String
  message : String
  observedGeneration : Int
  deriving DecidableEq, Repr

/-- AuraInstanceStatus from api/v1beta1. -/
structure AuraInstanceStatus where
  conditions : List Condition
  observedGeneration : Int
  instanceID : String
  connectionSecret : String
  instanceStatus : String
  deriving DecidableEq, Repr

/-- metav1.OwnerReference fields written and compared by the controller. -/
structure OwnerReference where
  apiVersion : String
  kind : String
  name : String
  uid : String
  deriving DecidableEq, Repr

/-- The object metadata fields the controller reads. -/
structure ObjectMeta where
  name : String
  nspace : String
  uid : String
  generation : Int
  apiVersion : String
  kind : String
  deriving DecidableEq, Repr

/-- AuraInstance from api/v1beta1. -/
structure AuraInstance where
  metadata : ObjectMeta
  spec : AuraInstanceSpec
  status : AuraInstanceStatus
  deriving DecidableEq, Repr

/-- corev1.Secret, restricted to the fields the controller reads. -/
structure KSecret where
  name : String
  nspace : String
  data : List (String × String)
  ownerReferences : List OwnerReference
  deriving DecidableEq, Repr

/-- Go map indexing with the zero-value default: secret.Data[k] is "" when
    the key is absent. -/
def lookupData (d : List (String × String)) (k : String) : String :=
  match d.find? (fun p => p.1 = k) with
  | some p => p.2
  | none => ""

def ConditionReady : String := "Ready"

def ConditionReconciling : String := "Reconciling"

/-- Modelled from the spec: `setResourceCondition` (api/v1beta1 package, file
    not present under src/) applies a condition onto the status condition
    list, which the spec describes as an ordered set of condition records
    each keyed by a condition type; setting a condition replaces the record
    of the same type in place or appends a new one. -/
def setResourceCondition (conds : List Condition) (t status reason message : String)
    (gen : Int) : List Condition :=
  if conds.any (fun c => c.type = t) then
    conds.map (fun c =>
      if c.type = t then
        { c with status := status, reason := reason, message := message,
                 observedGeneration := gen }
      else c)
  else
    conds ++ [⟨t, status, reason, message, gen⟩]

/-- fluxcd conditions.Delete: remove the condition of the given type. -/
def conditionsDelete (conds : List Condition) (t : String) : List Condition :=
  conds.filter (fun c => ¬ c.type = t)

/-- AuraInstanceReady from api/v1beta1. -/
def AuraInstanceReady (set : AuraInstance) (status reason message : String) : AuraInstance :=
  { set with
      status.conditions :=
        setResourceCondition set.status.conditions ConditionReady status reason message
          set.metadata.generation }

/-- AuraInstanceReconciling from api/v1beta1. -/
def AuraInstanceReconciling (set : AuraInstance) (status reason message : String) : AuraInstance :=
  { set with
      status.conditions :=
        setResourceCondition set.status.conditions ConditionReconciling status reason message
          set.metadata.generation }

/-- One instance entry of the list-instances response body. -/
structure RemoteInstance where
  id : String
  name : String
  deriving DecidableEq, Repr

/-- Body of a 200 get-instance response; vectorOptimized and
    graphAnalyticsPlugin are optional (pointer) fields of the generated
    client type. -/
structure InstanceData where
  id : String
  status : String
  memory : String
  vectorOptimized : Option Bool
  graphAnalyticsPlugin : Option Bool
  deriving DecidableEq, Repr

/-- Body of a 202 create-instance response. -/
structure CreateData where
  id : String
  username : String
  password : String
  connectionUrl : String
  deriving DecidableEq, Repr

def InstanceDataStatusRunning : String := "running"

def InstanceDataStatusCreating : String := "creating"

/-- An HTTP response as surfaced by the generated client: a status code, the
    raw body, and the parsed body pointer, which is non-nil only when the
    code matched the success code and the payload parsed. -/
structure HttpResp (α : Type) where
  statusCode : Nat
  body : String
  payload : Option α
  deriving Repr

/-- Result of a client Get for a secret: the object, a not-found error, or
    another error. -/
inductive SecretGetResult where
  | found (s : KSecret)
  | notFound
  | failure (msg : String)
  deriving Repr

/-- The environment of one reconciliation pass: what the local object store
    and the remote Aura API answer to each call the pass can make. A
    transport-level failure is an Except.error carrying the error text. -/
structure Env where
  secretGet : String → SecretGetResult
  getInstance : String → Except String (HttpResp InstanceData)
  listInstances : String → Except String (HttpResp (List RemoteInstance))
  createInstance : Except String (HttpResp CreateData)
  patchInstance : Except String (HttpResp Unit)
  deleteSecret : Except String Unit
  createSecret : Except String Unit

/-- PostInstancesJSONBody fields. -/
structure CreateReq where
  cloudProvider : String
  memory : String
  name : String
  region : String
  tenantId : String
  type : String
  version : String
  vectorOptimized : Bool
  graphAnalyticsPlugin : Bool
  deriving DecidableEq, Repr

/-- PatchInstanceIdJSONRequestBody fields. -/
structure PatchReq where
  graphAnalyticsPlugin : Bool
  memory : String
  vectorOptimized : Bool
  deriving DecidableEq, Repr

/-- The observable side effects of a pass, in order of execution. -/
inductive Effect where
  | secretGet (name : String)
  | apiGet (id : String)
  | apiList (tenant : String)
  | apiCreate (req : CreateReq)
  | apiPatch (id : String) (req : PatchReq)
  | secretDelete (name : String)
  | secretCreate (name : String) (username : String) (password : String)
      (connectionURL : String) (ownerUID : String)
  | statusPatch
  deriving DecidableEq, Repr

/-- ctrl.Result. -/
structure CtrlResult where
  requeue : Bool
  requeueAfter : Option Nat
  deriving DecidableEq, Repr

/-- The triple returned by a reconciliation pass. -/
structure RecOut where
  inst : AuraInstance
  result : CtrlResult
  error : Option String
  deriving DecidableEq, Repr

def thirtySeconds : Nat := 30 * 1000000000

/-- Message text of the k8s not-found error for a Secret, as pinned by the
    controller test suite. -/
def k8sNotFoundMsg (kind name : String) : String :=
  kind ++ " \"" ++ name ++ "\" not found"

/-- The effective client id key: the configured override or the default. -/
def effectiveClientIDKey (inst : AuraInstance) : String :=
  if inst.spec.secret.clientIDKey = "" then "clientID" else inst.spec.secret.clientIDKey

/-- The effective client secret key: the configured override or the default. -/
def effectiveClientSecretKey (inst : AuraInstance) : String :=
  if inst.spec.secret.clientSecretKey = "" then "clientSecret"
  else inst.spec.secret.clientSecretKey

/-- httpClient from the controller: resolve the credential secret and the
    effective key names; the oauth client construction itself makes no
    upstream call. -/
def httpClient (env : Env) (inst : AuraInstance) : Except String Unit × List Effect :=
  let eff := [Effect.secretGet inst.spec.secret.name]
  match env.secretGet inst.spec.secret.name with
  | SecretGetResult.failure msg => (Except.error ("failed to get secret: " ++ msg), eff)
  | SecretGetResult.notFound =>
      (Except.error ("failed to get secret: " ++ k8sNotFoundMsg "Secret" inst.spec.secret.name),
       eff)
  | SecretGetResult.found s =>
      let clientID := lookupData s.data (effectiveClientIDKey inst)
      let clientSecret := lookupData s.data (effectiveClientSecretKey inst)
      if clientID = "" ∨ clientSecret = "" then
        (Except.error ("secret must contain " ++ effectiveClientIDKey inst ++ " and "
          ++ effectiveClientSecretKey inst ++ " keys"), eff)
      else
        (Except.ok (), eff)

/-- The connection secret name: default is name-connection, overridable by
    spec.connectionSecret.name. -/
def connectionSecretName (inst : AuraInstance) : String :=
  if inst.spec.connectionSecret.name ≠ "" then inst.spec.connectionSecret.name
  else inst.metadata.name ++ "-connection"

/-- The delete of the stale connection secret followed by clearing
    instanceID and connectionSecret in status. -/
def deleteThenClear (env : Env) (inst : AuraInstance) (csName : String) (eff : List Effect) :
    Option RecOut × List Effect :=
  let eff2 := eff ++ [Effect.secretDelete csName]
  match env.deleteSecret with
  | Except.error msg =>
      (some ⟨inst, ⟨false, none⟩, some ("failed to delete secret: " ++ msg)⟩, eff2)
  | Except.ok _ =>
      (some ⟨{ inst with status.instanceID := "", status.connectionSecret := "" },
             ⟨true, none⟩, none⟩, eff2)

/-- The branch taken when get-instance answers 404: fetch the connection
    secret, verify its first owner reference against the record uid before
    deleting it, then clear the binding and requeue. -/
def notFoundCleanup (env : Env) (inst : AuraInstance) : Option RecOut × List Effect :=
  let csName := connectionSecretName inst
  let eff := [Effect.secretGet csName]
  match env.secretGet csName with
  | SecretGetResult.failure msg =>
      (some ⟨inst, ⟨false, none⟩, some ("failed to get secret: " ++ msg)⟩, eff)
  | SecretGetResult.notFound =>
      (some ⟨{ inst with status.instanceID := "", status.connectionSecret := "" },
             ⟨true, none⟩, none⟩, eff)
  | SecretGetResult.found s =>
      match s.ownerReferences with
      | ref :: _ =>
          if ref.uid ≠ inst.metadata.uid then
            (some ⟨inst, ⟨false, none⟩,
              some ("failed to delete secret, owner uid " ++ ref.uid ++ " does not match")⟩,
             eff)
          else
            deleteThenClear env inst csName eff
      | [] => deleteThenClear env inst csName eff

/-- Issue the drift patch: mark Reconciling, send the full patch payload,
    map a non-accepted response to an error. -/
def driftPatch (env : Env) (inst2 : AuraInstance) : Option RecOut × List Effect :=
  let inst3 := AuraInstanceReconciling inst2 "True" "UpdatingInstance" "Updating Aura instance"
  let req : PatchReq :=
    ⟨inst3.spec.graphAnalyticsPlugin, inst3.spec.memory, inst3.spec.vectorOptimized⟩
  let eff := [Effect.apiPatch inst3.status.instanceID req]
  match env.patchInstance with
  | Except.error msg =>
      (some ⟨inst3, ⟨false, none⟩, some ("failed to update instance: " ++ msg)⟩, eff)
  | Except.ok pr =>
      if pr.statusCode ≠ 202 then
        (some ⟨inst3, ⟨false, none⟩,
          some ("failed to update instance, request failed with code "
            ++ toString pr.statusCode ++ " - " ++ pr.body)⟩, eff)
      else
        (some ⟨inst3, ⟨false, none⟩, none⟩, eff)

/-- The drift comparison and conditional patch block: the Go || comparison
    short-circuits left to right and dereferencing a nil optional field is
    the undefined (none) outcome; when no compared field differs the pass
    ends without a patch call. -/
def driftCheck (env : Env) (inst2 : AuraInstance) (d : InstanceData) :
    Option RecOut × List Effect :=
  if inst2.spec.memory ≠ d.memory then driftPatch env inst2
  else
    match d.graphAnalyticsPlugin with
    | none => (none, [])
    | some gap =>
        if inst2.spec.graphAnalyticsPlugin ≠ gap then driftPatch env inst2
        else
          match d.vectorOptimized with
          | none => (none, [])
          | some vo =>
              if inst2.spec.vectorOptimized ≠ vo then driftPatch env inst2
              else (some ⟨inst2, ⟨false, none⟩, none⟩, [])

/-- The bound branch of reconcile: get the instance by id, handle 404 and
    other non-200 codes, classify the remote lifecycle status, then run the
    drift comparison. -/
def boundPath (env : Env) (inst : AuraInstance) : Option RecOut × List Effect :=
  let eff0 := [Effect.apiGet inst.status.instanceID]
  match env.getInstance inst.status.instanceID with
  | Except.error msg => (some ⟨inst, ⟨false, none⟩, some msg⟩, eff0)
  | Except.ok r =>
      if r.statusCode = 404 then
        let cleanup := notFoundCleanup env inst
        (cleanup.1, eff0 ++ cleanup.2)
      else if r.statusCode ≠ 200 then
        (some ⟨inst, ⟨false, none⟩,
          some ("failed to get instance, request failed with code "
            ++ toString r.statusCode ++ " - " ++ r.body)⟩, eff0)
      else
        match r.payload with
        | none => (none, eff0)
        | some d =>
            let inst1 := { inst with status.instanceStatus := d.status }
            if d.status = InstanceDataStatusCreating then
              (some ⟨AuraInstanceReconciling inst1 "True" "InstanceCreating"
                       "Instance is being created",
                     ⟨false, some thirtySeconds⟩, none⟩, eff0)
            else
              let inst2 :=
                if d.status = InstanceDataStatusRunning then
                  AuraInstanceReady
                    { inst1 with
                        status.conditions :=
                          conditionsDelete inst1.status.conditions ConditionReconciling }
                    "True" "InstanceRunning" "Instance is running"
                else
                  AuraInstanceReady inst1 "False" "InstanceNotReady"
                    ("Instance status: " ++ d.status)
              let dc := driftCheck env inst2 d
              (dc.1, eff0 ++ dc.2)

/-- Create a new remote instance and persist the connection secret after an
    accepted response. -/
def createFlow (env : Env) (inst : AuraInstance) : Option RecOut × List Effect :=
  let inst2 := AuraInstanceReconciling inst "True" "CreatingInstance" "Creating new Aura instance"
  let req : CreateReq :=
    ⟨inst2.spec.cloudProvider, inst2.spec.memory, inst2.metadata.name, inst2.spec.region,
     inst2.spec.tenantID, inst2.spec.tier, inst2.spec.neo4jVersion,
     inst2.spec.vectorOptimized, inst2.spec.graphAnalyticsPlugin⟩
  let eff0 := [Effect.apiCreate req]
  match env.createInstance with
  | Except.error msg =>
      (some ⟨inst2, ⟨false, none⟩, some ("failed to create the instance: " ++ msg)⟩, eff0)
  | Except.ok cr =>
      if cr.statusCode ≠ 202 then
        (some ⟨inst2, ⟨false, none⟩,
          some ("failed to create the instance, request failed with code "
            ++ toString cr.statusCode ++ " - " ++ cr.body)⟩, eff0)
      else
        match cr.payload with
        | none => (none, eff0)
        | some cd =>
            let csName := connectionSecretName inst
            let inst3 := { inst2 with status.instanceID := cd.id, status.connectionSecret := csName }
            let eff1 := eff0 ++
              [Effect.secretCreate csName cd.username cd.password cd.connectionUrl
                inst3.metadata.uid]
            match env.createSecret with
            | Except.error msg =>
                (some ⟨inst3, ⟨false, none⟩,
                  some ("failed to create connection secret: " ++ msg)⟩, eff1)
            | Except.ok _ =>
                (some ⟨inst3, ⟨false, some thirtySeconds⟩, none⟩, eff1)

/-- The unbound branch of reconcile: list the tenant instances, adopt the
    first one whose name equals the record name, otherwise create. -/
def unboundPath (env : Env) (inst : AuraInstance) : Option RecOut × List Effect :=
  let eff0 := [Effect.apiList inst.spec.tenantID]
  match env.listInstances inst.spec.tenantID with
  | Except.error msg => (some ⟨inst, ⟨false, none⟩, some msg⟩, eff0)
  | Except.ok r =>
      if r.statusCode ≠ 200 then
        (some ⟨inst, ⟨false, none⟩,
          some ("failed to get instance list, request failed with code "
            ++ toString r.statusCode ++ " - " ++ r.body)⟩, eff0)
      else
        match r.payload with
        | none => (none, eff0)
        | some l =>
            match l.find? (fun ri => inst.metadata.name = ri.name) with
            | some ri =>
                (some ⟨{ inst with status.instanceID := ri.id }, ⟨true, none⟩, none⟩, eff0)
            | none =>
                let c := createFlow env inst
                (c.1, eff0 ++ c.2)

/-- The inner reconcile: resolve credentials, then the bound or unbound
    branch. The aura client construction error branch depends only on the
    statically configured base URL and is not reachable in a deployed
    configuration, so it is not modelled. -/
def reconcile (env : Env) (inst : AuraInstance) : Option RecOut × List Effect :=
  match httpClient env inst with
  | (Except.error msg, eff) => (some ⟨inst, ⟨false, none⟩, some msg⟩, eff)
  | (Except.ok _, eff) =>
      if inst.status.instanceID ≠ "" then
        let b := boundPath env inst
        (b.1, eff ++ b.2)
      else
        let u := unboundPath env inst
        (u.1, eff ++ u.2)

/-- The pass boundary Reconcile: the suspend gate, the inner reconcile, the
    observed generation bump, the error to condition conversion, the status
    patch, and the interval applied on a successful pass. -/
def Reconcile (env : Env) (inst : AuraInstance) : Option RecOut × List Effect :=
  if inst.spec.suspend then
    (some ⟨inst, ⟨false, none⟩, none⟩, [])
  else
    match reconcile env inst with
    | (none, eff) => (none, eff)
    | (some o, eff) =>
        let i1 := { o.inst with status.observedGeneration := o.inst.metadata.generation }
        let i2 :=
          match o.error with
          | some msg => AuraInstanceReady i1 "False" "ReconciliationFailed" msg
          | none => i1
        let result :=
          match o.error, inst.spec.interval with
          | none, some d => { o.result with requeueAfter := some d }
          | _, _ => o.result
        (some ⟨i2, result, o.error⟩, eff ++ [Effect.statusPatch])

/-- First condition of a given type in the list. -/
def getCondition (conds : List Condition) (t : String) : Option Condition :=
  conds.find? (fun c => c.type = t)

/-- Number of conditions of a given type in the list. -/
def countType (conds : List Condition) (t : String) : Nat :=
  conds.countP (fun c => c.type = t)

def isApiCreate : Effect → Bool
  | Effect.apiCreate _ => true
  | _ => false

def isApiPatch : Effect → Bool
  | Effect.apiPatch _ _ => true
  | _ => false

def isSecretCreate : Effect → Bool
  | Effect.secretCreate _ _ _ _ _ => true
  | _ => false

def isSecretDelete : Effect → Bool
  | Effect.secretDelete _ => true
  | _ => false

/-- True when no connection-credential record creation appears in the trace
    before the first remote create call. -/
def credPersistedOnlyAfterCreate : List Effect → Bool
  | [] => true
  | Effect.secretCreate _ _ _ _ _ :: _ => false
  | Effect.apiCreate _ :: _ => true
  | _ :: rest => credPersistedOnlyAfterCreate rest

/-- All conditions lists of the record hold at most one condition per type. -/
def condsBounded (inst : AuraInstance) : Prop :=
  ∀ u, countType inst.status.conditions u ≤ 1

/-- A credential secret with the default keys populated. -/
def credsSecret : KSecret :=
  ⟨"creds", "default", [("clientID", "id"), ("clientSecret", "sec")], []⟩

/-- A fresh unbound record. -/
def inst0 : AuraInstance :=
  { metadata := ⟨"db1", "default", "uid-1", 3, "v1beta1", "AuraInstance"⟩,
    spec := ⟨"professional-db", "eu-west1", "gcp", "8GB", "5", "t1",
      ⟨"creds", "", ""⟩, ⟨""⟩, false, false, false, none⟩,
    status := ⟨[], 0, "", "", ""⟩ }

/-- The record bound to remote instance i9. -/
def instB : AuraInstance :=
  { inst0 with status.instanceID := "i9", status.connectionSecret := "db1-connection" }

/-- The suspended record. -/
def suspInst : AuraInstance := { inst0 with spec.suspend := true }

/-- Baseline environment: credentials resolvable, empty tenant, accepting
    create and patch endpoints. -/
def env0 : Env :=
  { secretGet := fun n =>
      if n = "creds" then SecretGetResult.found credsSecret else SecretGetResult.notFound,
    getInstance := fun _ => Except.error "no get",
    listInstances := fun _ => Except.ok ⟨200, "", some []⟩,
    createInstance := Except.ok ⟨202, "", some ⟨"i1", "u", "p", "bolt"⟩⟩,
    patchInstance := Except.ok ⟨202, "", some ()⟩,
    deleteSecret := Except.ok (),
    createSecret := Except.ok () }

/-- Tenant list holding two instances named db1; the first has id idA. -/
def envAdopt : Env :=
  { env0 with
      listInstances := fun _ =>
        Except.ok ⟨200, "", some [⟨"x", "other"⟩, ⟨"idA", "db1"⟩, ⟨"idB", "db1"⟩]⟩ }

/-- No secret exists at all. -/
def envNoSecret : Env := { env0 with secretGet := fun _ => SecretGetResult.notFound }

/-- A record addressing the credential secret through a wrong override key. -/
def instWrongKey : AuraInstance :=
  { inst0 with spec.secret := ⟨"creds", "wrongClientId", ""⟩ }

/-- The connection secret owned by the record uid-1. -/
def connSec : KSecret :=
  ⟨"db1-connection", "default", [], [⟨"v1beta1", "AuraInstance", "db1", "uid-1"⟩]⟩

/-- Remote get answers 404 and the owned connection secret is present. -/
def env404 : Env :=
  { env0 with
      getInstance := fun _ => Except.ok ⟨404, "", none⟩,
      secretGet := fun n =>
        if n = "creds" then SecretGetResult.found credsSecret
        else if n = "db1-connection" then SecretGetResult.found connSec
        else SecretGetResult.notFound }

/-- Remote get answers 200 running with drifted memory and absent optional
    feature fields. -/
def envRun : Env :=
  { env0 with
      getInstance := fun _ => Except.ok ⟨200, "", some ⟨"i9", "running", "16GB", none, none⟩⟩ }

/-- Remote get answers 200 running fully matching the spec. -/
def envRun3 : Env :=
  { env0 with
      getInstance := fun _ =>
        Except.ok ⟨200, "", some ⟨"i9", "running", "8GB", some false, some false⟩⟩ }

/-- Remote get answers 500 with body boom. -/
def env500 : Env :=
  { env0 with getInstance := fun _ => Except.ok ⟨500, "boom", none⟩ }

/-- Create is accepted but the connection secret persistence fails. -/
def envCF : Env := { env0 with createSecret := Except.error "persist fail" }

theorem httpClient_snd (env : Env) (inst : AuraInstance) :
    (httpClient env inst).2 = [Effect.secretGet inst.spec.secret.name] := by
  unfold httpClient
  cases env.secretGet inst.spec.secret.name
  · dsimp only
    split
    · rfl
    · rfl
  · rfl
  · rfl

theorem find?_type_map_set (cs : List Condition) (t s r m : String) (g : Int) :
    (cs.map (fun c => if c.type = t then
        { c with status := s, reason := r, message := m, observedGeneration := g } else c)).find?
      (fun c => c.type = t) =
    (cs.find? (fun c => c.type = t)).map (fun c =>
        { c with status := s, reason := r, message := m, observedGeneration := g }) := by
  induction cs with
  | nil => rfl
  | cons c cs ih =>
    by_cases hc : c.type = t
    · simp [List.find?_cons, hc]
    · simp [List.find?_cons, hc, ih]

theorem getCondition_set (conds : List Condition) (t s r m : String) (g : Int) :
    getCondition (setResourceCondition conds t s r m g) t = some ⟨t, s, r, m, g⟩ := by
  unfold getCondition setResourceCondition
  by_cases hany : conds.any (fun c => c.type = t)
  · rw [if_pos hany]
    rw [find?_type_map_set]
    have hsome : (conds.find? (fun c => decide (c.type = t))).isSome := by
      rw [List.find?_isSome]
      obtain ⟨x, hx, hpx⟩ := List.any_eq_true.mp hany
      exact ⟨x, hx, hpx⟩
    obtain ⟨c0, hc0⟩ := Option.isSome_iff_exists.mp hsome
    have hc0t : c0.type = t := by
      have := List.find?_some hc0
      simpa using this
    rw [hc0]
    simp [hc0t]
  · rw [if_neg hany]
    rw [List.find?_append]
    have hnone : conds.find? (fun c => decide (c.type = t)) = none := by
      rw [List.find?_eq_none]
      intro x hx hpx
      exact hany (List.any_eq_true.mpr ⟨x, hx, hpx⟩)
    simp [hnone]

theorem countType_set_le_one (conds : List Condition) (t s r m : String) (g : Int)
    (u : String) (h : countType conds u ≤ 1) :
    countType (setResourceCondition conds t s r m g) u ≤ 1 := by
  unfold countType setResourceCondition
  unfold countType at h
  by_cases hany : conds.any (fun c => c.type = t)
  · rw [if_pos hany]
    rw [List.countP_map]
    have hfun : ((fun (c : Condition) => decide (c.type = u)) ∘ (fun (c : Condition) =>
        if c.type = t then
          { c with status := s, reason := r, message := m, observedGeneration := g } else c))
        = fun (c : Condition) => decide (c.type = u) := by
      funext c
      by_cases hc : c.type = t <;> simp [hc]
    rw [hfun]
    exact h
  · rw [if_neg hany]
    rw [List.countP_append]
    by_cases hu : t = u
    · subst hu
      have hzero : conds.countP (fun c => decide (c.type = t)) = 0 := by
        rw [List.countP_eq_zero]
        intro x hx hpx
        exact hany (List.any_eq_true.mpr ⟨x, hx, hpx⟩)
      simp [hzero, List.countP_cons]
    · have hone : List.countP (fun c => decide (c.type = u))
          [(⟨t, s, r, m, g⟩ : Condition)] = 0 := by
        simp [List.countP_cons, hu]
      rw [hone]
      simpa using h

theorem countType_delete_le (conds : List Condition) (t u : String) :
    countType (conditionsDelete conds t) u ≤ countType conds u :=
  (List.filter_sublist conds).countP_le _

/-- C9: for every record with suspend true, a reconcile invocation returns
    the record untouched (so no condition is written and the whole status is
    unchanged), performs no side effect at all (in particular no upstream
    call), and reports no error. -/
theorem c9_suspend_no_action (env : Env) (inst : AuraInstance)
    (hs : inst.spec.suspend = true) :
    Reconcile env inst = (some ⟨inst, ⟨false, none⟩, none⟩, []) := by
  unfold Reconcile
  rw [if_pos hs]

/-- Witness for C9 at the concrete suspended record and baseline env. -/
theorem c9_witness :
    suspInst.spec.suspend = true ∧
    Reconcile env0 suspInst = (some ⟨suspInst, ⟨false, none⟩, none⟩, []) :=
  ⟨rfl, c9_suspend_no_action env0 suspInst rfl⟩

/-- C5: on a pass with empty instanceID whose tenant listing succeeds and
    holds an instance with exactly the record name (first match in list
    order), the pass adopts that id, requeues immediately, reports no error
    and issues no create call. -/
theorem c5_adopt_first_match (env : Env) (inst : AuraInstance)
    (hid : inst.status.instanceID = "")
    (hcred : (httpClient env inst).1 = Except.ok ())
    (r : HttpResp (List RemoteInstance)) (l : List RemoteInstance) (ri : RemoteInstance)
    (hlist : env.listInstances inst.spec.tenantID = Except.ok r)
    (hcode : r.statusCode = 200)
    (hpayload : r.payload = some l)
    (hfind : l.find? (fun x => inst.metadata.name = x.name) = some ri) :
    (reconcile env inst).1 =
      some ⟨{ inst with status.instanceID := ri.id }, ⟨true, none⟩, none⟩ ∧
    ∀ req, Effect.apiCreate req ∉ (reconcile env inst).2 := by
  have heq : httpClient env inst = (Except.ok (), [Effect.secretGet inst.spec.secret.name]) := by
    rw [Prod.ext_iff]
    exact ⟨hcred, httpClient_snd env inst⟩
  have hrec : reconcile env inst =
      (some ⟨{ inst with status.instanceID := ri.id }, ⟨true, none⟩, none⟩,
       [Effect.secretGet inst.spec.secret.name, Effect.apiList inst.spec.tenantID]) := by
    unfold reconcile
    rw [heq]
    dsimp only
    rw [if_neg (by simp [hid])]
    unfold unboundPath
    rw [hlist]
    dsimp only
    rw [if_neg (by simp [hcode])]
    rw [hpayload]
    dsimp only
    rw [hfind]
    simp
  rw [hrec]
  constructor
  · rfl
  · intro req hmem
    simp at hmem

/-- Witness for C5: the tenant listing has two instances named db1 and the
    pass adopts the first of them without creating. -/
theorem c5_witness :
    inst0.status.instanceID = "" ∧
    (reconcile envAdopt inst0).1 =
      some ⟨{ inst0 with status.instanceID := "idA" }, ⟨true, none⟩, none⟩ ∧
    ∀ req, Effect.apiCreate req ∉ (reconcile envAdopt inst0).2 := by
  have h := c5_adopt_first_match envAdopt inst0 rfl rfl
      ⟨200, "", some [⟨"x", "other"⟩, ⟨"idA", "db1"⟩, ⟨"idB", "db1"⟩]⟩
      [⟨"x", "other"⟩, ⟨"idA", "db1"⟩, ⟨"idB", "db1"⟩] ⟨"idA", "db1"⟩ rfl rfl rfl rfl
  exact ⟨rfl, h.1, h.2⟩

theorem Reconcile_wraps_error (env : Env) (inst : AuraInstance)
    (hs : inst.spec.suspend = false) (o : RecOut) (m : String)
    (ho : (Reconcile env inst).1 = some o) (he : o.error = some m) :
    getCondition o.inst.status.conditions ConditionReady =
      some ⟨ConditionReady, "False", "ReconciliationFailed", m, o.inst.metadata.generation⟩ := by
  unfold Reconcile at ho
  rw [if_neg (by simp [hs])] at ho
  rcases hr : reconcile env inst with ⟨ro, eff⟩
  rw [hr] at ho
  cases ro with
  | none => simp at ho
  | some o' =>
    rcases o' with ⟨i', res', err'⟩
    cases err' with
    | none =>
      dsimp only at ho
      have hoo := Option.some.inj ho
      subst hoo
      simp at he
    | some m' =>
      dsimp only at ho
      have hoo := Option.some.inj ho
      subst hoo
      have hm : m' = m := Option.some.inj he
      subst hm
      unfold AuraInstanceReady
      dsimp only
      exact getCondition_set _ _ _ _ _ _

theorem Reconcile_error_of_inner (env : Env) (inst : AuraInstance)
    (hs : inst.spec.suspend = false) (ro : RecOut) (eff : List Effect) (m : String)
    (hr : reconcile env inst = (some ro, eff)) (he : ro.error = some m)
    (o : RecOut) (ho : (Reconcile env inst).1 = some o) :
    o.error = some m := by
  unfold Reconcile at ho
  rw [if_neg (by simp [hs]), hr] at ho
  dsimp only at ho
  have hoo := Option.some.inj ho
  subst hoo
  exact he

/-- C7: every erroring pass surfaces Ready=false ReconciliationFailed with
    the error message verbatim; a 500 on get yields the raw-code-and-body
    message; the declared interval is applied as requeue delay only on a
    pass that returns no error (on error the inner result is returned
    unmodified). -/
theorem c7_error_propagation (env : Env) (inst : AuraInstance)
    (hs : inst.spec.suspend = false) :
    (∀ o m, (Reconcile env inst).1 = some o → o.error = some m →
      getCondition o.inst.status.conditions ConditionReady =
        some ⟨ConditionReady, "False", "ReconciliationFailed", m,
          o.inst.metadata.generation⟩) ∧
    (∀ r : HttpResp InstanceData, inst.status.instanceID ≠ "" →
      (httpClient env inst).1 = Except.ok () →
      env.getInstance inst.status.instanceID = Except.ok r → r.statusCode = 500 →
      (reconcile env inst).1 = some ⟨inst, ⟨false, none⟩,
        some ("failed to get instance, request failed with code "
          ++ toString (500 : Nat) ++ " - " ++ r.body)⟩) ∧
    (∀ ro eff o, reconcile env inst = (some ro, eff) → (Reconcile env inst).1 = some o →
      ((∀ m, ro.error = some m → o.result = ro.result) ∧
       (ro.error = none → ∀ d, inst.spec.interval = some d →
         o.result.requeueAfter = some d))) := by
  refine ⟨fun o m ho he => Reconcile_wraps_error env inst hs o m ho he, ?_, ?_⟩
  · intro r hid hcred hget hcode
    have heq : httpClient env inst =
        (Except.ok (), [Effect.secretGet inst.spec.secret.name]) := by
      rw [Prod.ext_iff]
      exact ⟨hcred, httpClient_snd env inst⟩
    unfold reconcile
    rw [heq]
    dsimp only
    rw [if_pos hid]
    unfold boundPath
    rw [hget]
    dsimp only
    rw [if_neg (by simp [hcode])]
    rw [if_pos (by simp [hcode])]
    rw [hcode]
  · intro ro eff o hr ho
    unfold Reconcile at ho
    rw [if_neg (by simp [hs]), hr] at ho
    dsimp only at ho
    have hoo := Option.some.inj ho
    subst hoo
    constructor
    · intro m hm
      cases hi : inst.spec.interval <;> simp [hm, hi]
    · intro hnone d hd
      simp [hnone, hd]

/-- Witness for C7: a bound record whose get answers 500 with body boom. -/
theorem c7_witness :
    instB.spec.suspend = false ∧
    (reconcile env500 instB).1 = some ⟨instB, ⟨false, none⟩,
      some ("failed to get instance, request failed with code "
        ++ toString (500 : Nat) ++ " - " ++ "boom")⟩ := by
  refine ⟨rfl, ?_⟩
  exact (c7_error_propagation env500 instB rfl).2.1 ⟨500, "boom", none⟩ (by decide) rfl rfl rfl

/-- C8: a missing credential secret named s fails the pass with the message
    failed to get secret: Secret "s" not found, surfaced as
    Ready=false ReconciliationFailed; a resolvable secret whose effective
    (possibly overridden) keys yield an empty identifier or secret fails
    with a message naming exactly the effective key names. -/
theorem c8_credential_diagnostics (env : Env) (inst : AuraInstance)
    (hs : inst.spec.suspend = false) :
    (env.secretGet inst.spec.secret.name = SecretGetResult.notFound →
      (reconcile env inst).1 = some ⟨inst, ⟨false, none⟩,
        some ("failed to get secret: " ++ k8sNotFoundMsg "Secret" inst.spec.secret.name)⟩ ∧
      ∀ o, (Reconcile env inst).1 = some o →
        getCondition o.inst.status.conditions ConditionReady =
          some ⟨ConditionReady, "False", "ReconciliationFailed",
            "failed to get secret: " ++ k8sNotFoundMsg "Secret" inst.spec.secret.name,
            o.inst.metadata.generation⟩) ∧
    (∀ s, env.secretGet inst.spec.secret.name = SecretGetResult.found s →
      (lookupData s.data (effectiveClientIDKey inst) = "" ∨
       lookupData s.data (effectiveClientSecretKey inst) = "") →
      (reconcile env inst).1 = some ⟨inst, ⟨false, none⟩,
        some ("secret must contain " ++ effectiveClientIDKey inst ++ " and "
          ++ effectiveClientSecretKey inst ++ " keys")⟩) := by
  constructor
  · intro hnf
    have hhc : httpClient env inst =
        (Except.error ("failed to get secret: " ++ k8sNotFoundMsg "Secret"
          inst.spec.secret.name), [Effect.secretGet inst.spec.secret.name]) := by
      unfold httpClient
      rw [hnf]
    have hr : reconcile env inst =
        (some ⟨inst, ⟨false, none⟩,
          some ("failed to get secret: " ++ k8sNotFoundMsg "Secret" inst.spec.secret.name)⟩,
         [Effect.secretGet inst.spec.secret.name]) := by
      unfold reconcile
      rw [hhc]
    refine ⟨by rw [hr], fun o ho => ?_⟩
    exact Reconcile_wraps_error env inst hs o _ ho
      (Reconcile_error_of_inner env inst hs _ _ _ hr rfl o ho)
  · intro s hfound hempty
    have hhc : httpClient env inst =
        (Except.error ("secret must contain " ++ effectiveClientIDKey inst ++ " and "
          ++ effectiveClientSecretKey inst ++ " keys"),
         [Effect.secretGet inst.spec.secret.name]) := by
      unfold httpClient
      rw [hfound]
      dsimp only
      rw [if_pos hempty]
    unfold reconcile
    rw [hhc]

/-- Witness for C8: the two concrete scenarios, a missing secret named creds
    and a wrong override key wrongClientId against a secret holding the
    default keys. -/
theorem c8_witness :
    (reconcile envNoSecret inst0).1 = some ⟨inst0, ⟨false, none⟩,
      some "failed to get secret: Secret \"creds\" not found"⟩ ∧
    (reconcile env0 instWrongKey).1 = some ⟨instWrongKey, ⟨false, none⟩,
      some "secret must contain wrongClientId and clientSecret keys"⟩ := by
  constructor
  · exact ((c8_credential_diagnostics envNoSecret inst0 rfl).1 rfl).1
  · exact (c8_credential_diagnostics env0 instWrongKey rfl).2 credsSecret rfl (Or.inl rfl)

theorem driftPatch_snd (env : Env) (i : AuraInstance) :
    (driftPatch env i).2 = [Effect.apiPatch i.status.instanceID
      ⟨i.spec.graphAnalyticsPlugin, i.spec.memory, i.spec.vectorOptimized⟩] := by
  unfold driftPatch
  rcases hp : env.patchInstance with msg | pr
  · rfl
  · dsimp only
    split
    · rfl
    · rfl

theorem driftPatch_fst_isSome (env : Env) (i : AuraInstance) :
    ((driftPatch env i).1).isSome = true := by
  unfold driftPatch
  rcases hp : env.patchInstance with msg | pr
  · rfl
  · dsimp only
    split
    · rfl
    · rfl

theorem driftCheck_patch_iff (env : Env) (inst2 : AuraInstance) (d : InstanceData)
    (vo gap : Bool) (hvo : d.vectorOptimized = some vo)
    (hgap : d.graphAnalyticsPlugin = some gap) :
    ((driftCheck env inst2 d).2.any (fun e => isApiPatch e) = true ↔
      (inst2.spec.memory ≠ d.memory ∨ inst2.spec.graphAnalyticsPlugin ≠ gap ∨
       inst2.spec.vectorOptimized ≠ vo)) ∧
    (driftCheck env inst2 d).2.countP (fun e => isApiPatch e) ≤ 1 := by
  unfold driftCheck
  by_cases hm : inst2.spec.memory ≠ d.memory
  · rw [if_pos hm, driftPatch_snd]
    exact ⟨by simp [isApiPatch, hm], by simp [isApiPatch]⟩
  · rw [if_neg hm, hgap]
    dsimp only
    by_cases hg : inst2.spec.graphAnalyticsPlugin ≠ gap
    · rw [if_pos hg, driftPatch_snd]
      exact ⟨by simp [isApiPatch, hg], by simp [isApiPatch]⟩
    · rw [if_neg hg, hvo]
      dsimp only
      by_cases hv : inst2.spec.vectorOptimized ≠ vo
      · rw [if_pos hv, driftPatch_snd]
        exact ⟨by simp [isApiPatch, hv], by simp [isApiPatch]⟩
      · rw [if_neg hv]
        exact ⟨by simp [hm, hg, hv], by simp⟩

theorem driftCheck_defined (env : Env) (inst2 : AuraInstance) (d : InstanceData) :
    (∀ vo gap, d.vectorOptimized = some vo → d.graphAnalyticsPlugin = some gap →
      ((driftCheck env inst2 d).1).isSome = true) ∧
    (inst2.spec.memory = d.memory → d.graphAnalyticsPlugin = none →
      (driftCheck env inst2 d).1 = none) ∧
    (inst2.spec.memory ≠ d.memory → ((driftCheck env inst2 d).1).isSome = true) := by
  refine ⟨?_, ?_, ?_⟩
  · intro vo gap hvo hgap
    unfold driftCheck
    by_cases hm : inst2.spec.memory ≠ d.memory
    · rw [if_pos hm]
      exact driftPatch_fst_isSome env inst2
    · rw [if_neg hm, hgap]
      dsimp only
      by_cases hg : inst2.spec.graphAnalyticsPlugin ≠ gap
      · rw [if_pos hg]
        exact driftPatch_fst_isSome env inst2
      · rw [if_neg hg, hvo]
        dsimp only
        by_cases hv : inst2.spec.vectorOptimized ≠ vo
        · rw [if_pos hv]
          exact driftPatch_fst_isSome env inst2
        · rw [if_neg hv]
          rfl
  · intro hm hgap
    unfold driftCheck
    rw [if_neg (by simp [hm]), hgap]
  · intro hm
    unfold driftCheck
    rw [if_pos hm]
    exact driftPatch_fst_isSome env inst2

theorem boundPath_200 (env : Env) (inst : AuraInstance) (r : HttpResp InstanceData)
    (d : InstanceData) (hget : env.getInstance inst.status.instanceID = Except.ok r)
    (hcode : r.statusCode = 200) (hpayload : r.payload = some d)
    (hnc : d.status ≠ InstanceDataStatusCreating) :
    ∃ inst2 : AuraInstance, inst2.spec = inst.spec ∧
      inst2.status.instanceID = inst.status.instanceID ∧
      boundPath env inst = ((driftCheck env inst2 d).1,
        Effect.apiGet inst.status.instanceID :: (driftCheck env inst2 d).2) := by
  unfold boundPath
  rw [hget]
  dsimp only
  rw [if_neg (by simp [hcode]), if_neg (by simp [hcode]), hpayload]
  dsimp only
  rw [if_neg hnc]
  refine ⟨_, ?_, ?_, rfl⟩
  · split
    · rfl
    · rfl
  · split
    · rfl
    · rfl

/-- C3: on a bound pass whose get answers 200 with both optional fields
    present, a patch call appears in the trace iff the remote status is not
    Creating and at least one of memory, graphAnalyticsPlugin,
    vectorOptimized differs from the spec, and at most one patch call is
    made per pass. -/
theorem c3_drift_patch_iff (env : Env) (inst : AuraInstance)
    (hid : inst.status.instanceID ≠ "")
    (hcred : (httpClient env inst).1 = Except.ok ())
    (r : HttpResp InstanceData) (d : InstanceData) (vo gap : Bool)
    (hget : env.getInstance inst.status.instanceID = Except.ok r)
    (hcode : r.statusCode = 200) (hpayload : r.payload = some d)
    (hvo : d.vectorOptimized = some vo) (hgap : d.graphAnalyticsPlugin = some gap) :
    ((reconcile env inst).2.any (fun e => isApiPatch e) = true ↔
      (d.status ≠ InstanceDataStatusCreating ∧
        (inst.spec.memory ≠ d.memory ∨ inst.spec.graphAnalyticsPlugin ≠ gap ∨
         inst.spec.vectorOptimized ≠ vo))) ∧
    (reconcile env inst).2.countP (fun e => isApiPatch e) ≤ 1 := by
  have heq : httpClient env inst = (Except.ok (), [Effect.secretGet inst.spec.secret.name]) := by
    rw [Prod.ext_iff]
    exact ⟨hcred, httpClient_snd env inst⟩
  have hrec : reconcile env inst =
      ((boundPath env inst).1,
        Effect.secretGet inst.spec.secret.name :: (boundPath env inst).2) := by
    unfold reconcile
    rw [heq]
    dsimp only
    rw [if_pos hid]
    rfl
  by_cases hnc : d.status = InstanceDataStatusCreating
  · have hbp : boundPath env inst =
        (some ⟨AuraInstanceReconciling { inst with status.instanceStatus := d.status }
          "True" "InstanceCreating" "Instance is being created",
          ⟨false, some thirtySeconds⟩, none⟩, [Effect.apiGet inst.status.instanceID]) := by
      unfold boundPath
      rw [hget]
      dsimp only
      rw [if_neg (by simp [hcode]), if_neg (by simp [hcode]), hpayload]
      dsimp only
      rw [if_pos hnc]
    rw [hrec, hbp]
    exact ⟨by simp [isApiPatch, hnc], by simp [isApiPatch]⟩
  · obtain ⟨inst2, hspec, hiid, hbp⟩ := boundPath_200 env inst r d hget hcode hpayload hnc
    have hdc := driftCheck_patch_iff env inst2 d vo gap hvo hgap
    rw [hspec] at hdc
    rw [hrec, hbp]
    constructor
    · rw [show ((((driftCheck env inst2 d).1,
          Effect.apiGet inst.status.instanceID :: (driftCheck env inst2 d).2) :
          Option RecOut × List Effect).2) =
          Effect.apiGet inst.status.instanceID :: (driftCheck env inst2 d).2 from rfl]
      rw [List.any_cons, List.any_cons]
      rw [show isApiPatch (Effect.secretGet inst.spec.secret.name) = false from rfl]
      rw [show isApiPatch (Effect.apiGet inst.status.instanceID) = false from rfl]
      rw [Bool.false_or, Bool.false_or]
      rw [hdc.1]
      simp [hnc]
    · rw [show ((((driftCheck env inst2 d).1,
          Effect.apiGet inst.status.instanceID :: (driftCheck env inst2 d).2) :
          Option RecOut × List Effect).2) =
          Effect.apiGet inst.status.instanceID :: (driftCheck env inst2 d).2 from rfl]
      rw [List.countP_cons, List.countP_cons]
      rw [show isApiPatch (Effect.secretGet inst.spec.secret.name) = false from rfl]
      rw [show isApiPatch (Effect.apiGet inst.status.instanceID) = false from rfl]
      simpa using hdc.2

/-- Witness for C3: a running remote instance fully matching the spec, so
    the drift check fires for no field and no patch call appears. -/
theorem c3_witness :
    instB.status.instanceID ≠ "" ∧
    ((reconcile envRun3 instB).2.any (fun e => isApiPatch e) = true ↔
      (("running" : String) ≠ InstanceDataStatusCreating ∧
        (instB.spec.memory ≠ "8GB" ∨ instB.spec.graphAnalyticsPlugin ≠ false ∨
         instB.spec.vectorOptimized ≠ false))) ∧
    (reconcile envRun3 instB).2.countP (fun e => isApiPatch e) ≤ 1 := by
  have h := c3_drift_patch_iff envRun3 instB (by decide) rfl
      ⟨200, "", some ⟨"i9", "running", "8GB", some false, some false⟩⟩
      ⟨"i9", "running", "8GB", some false, some false⟩ false false rfl rfl rfl rfl rfl
  exact ⟨by decide, h.1, h.2⟩

/-- C10 (amended): with both optional fields present in the 200 body the
    bound pass is defined (the nil dereference is unreachable), but the Go
    comparison short-circuits: with the memory field already drifting the
    pass is defined even when both optional fields are absent, and the
    dereference crash occurs exactly when the comparison reaches a missing
    field, e.g. memory equal and graphAnalyticsPlugin absent outside the
    Creating state. -/
theorem c10_deref_short_circuit (env : Env) (inst : AuraInstance)
    (hid : inst.status.instanceID ≠ "")
    (hcred : (httpClient env inst).1 = Except.ok ())
    (r : HttpResp InstanceData) (d : InstanceData)
    (hget : env.getInstance inst.status.instanceID = Except.ok r)
    (hcode : r.statusCode = 200) (hpayload : r.payload = some d) :
    (∀ vo gap, d.vectorOptimized = some vo → d.graphAnalyticsPlugin = some gap →
      ((reconcile env inst).1).isSome = true) ∧
    (d.status ≠ InstanceDataStatusCreating → inst.spec.memory = d.memory →
      d.graphAnalyticsPlugin = none → (reconcile env inst).1 = none) ∧
    (d.status ≠ InstanceDataStatusCreating → inst.spec.memory ≠ d.memory →
      ((reconcile env inst).1).isSome = true) := by
  have heq : httpClient env inst = (Except.ok (), [Effect.secretGet inst.spec.secret.name]) := by
    rw [Prod.ext_iff]
    exact ⟨hcred, httpClient_snd env inst⟩
  have hrec : reconcile env inst =
      ((boundPath env inst).1,
        Effect.secretGet inst.spec.secret.name :: (boundPath env inst).2) := by
    unfold reconcile
    rw [heq]
    dsimp only
    rw [if_pos hid]
    rfl
  refine ⟨?_, ?_, ?_⟩
  · intro vo gap hvo hgap
    rw [hrec]
    by_cases hnc : d.status = InstanceDataStatusCreating
    · have hbp : boundPath env inst =
          (some ⟨AuraInstanceReconciling { inst with status.instanceStatus := d.status }
            "True" "InstanceCreating" "Instance is being created",
            ⟨false, some thirtySeconds⟩, none⟩, [Effect.apiGet inst.status.instanceID]) := by
        unfold boundPath
        rw [hget]
        dsimp only
        rw [if_neg (by simp [hcode]), if_neg (by simp [hcode]), hpayload]
        dsimp only
        rw [if_pos hnc]
      rw [hbp]
      rfl
    · obtain ⟨inst2, hspec, hiid, hbp⟩ := boundPath_200 env inst r d hget hcode hpayload hnc
      rw [hbp]
      exact (driftCheck_defined env inst2 d).1 vo gap hvo hgap
  · intro hnc hmem hgap
    obtain ⟨inst2, hspec, hiid, hbp⟩ := boundPath_200 env inst r d hget hcode hpayload hnc
    rw [hrec, hbp]
    exact (driftCheck_defined env inst2 d).2.1 (by rw [hspec]; exact hmem) hgap
  · intro hnc hmem
    obtain ⟨inst2, hspec, hiid, hbp⟩ := boundPath_200 env inst r d hget hcode hpayload hnc
    rw [hrec, hbp]
    exact (driftCheck_defined env inst2 d).2.2 (by rw [hspec]; exact hmem)

/-- Witness for C10: a 200 response with drifting memory and both optional
    fields absent leaves the pass defined. -/
theorem c10_witness :
    instB.status.instanceID ≠ "" ∧ instB.spec.memory ≠ "16GB" ∧
    ((reconcile envRun instB).1).isSome = true := by
  have h := c10_deref_short_circuit envRun instB (by decide) rfl
      ⟨200, "", some ⟨"i9", "running", "16GB", none, none⟩⟩
      ⟨"i9", "running", "16GB", none, none⟩ rfl rfl rfl
  exact ⟨by decide, by decide, h.2.2 (by decide) (by decide)⟩

/-- Counterexample for C10 as stated: this 200 response lacks both optional
    fields, yet the pass is defined (the short-circuiting memory comparison
    already differs), contradicting that such a response falls outside the
    defined behaviour. -/
theorem c10_counterexample :
    envRun.getInstance "i9" =
      Except.ok ⟨200, "", some ⟨"i9", "running", "16GB", none, none⟩⟩ ∧
    ((reconcile envRun instB).1).isSome = true := by
  exact ⟨rfl, by decide⟩

/-- C2: on a bound pass whose get answers 404 with the owned connection
    secret present and carrying an ownership back-reference, a matching
    owner uid leads to deletion of the secret, clearing of instanceID and
    the connection secret name, an immediate requeue, untouched conditions
    and no error; a mismatching owner uid fails the pass with the owner-uid
    mismatch error and no deletion happens. -/
theorem c2_remote_missing_cleanup (env : Env) (inst : AuraInstance)
    (hid : inst.status.instanceID ≠ "")
    (hcred : (httpClient env inst).1 = Except.ok ())
    (r : HttpResp InstanceData)
    (hget : env.getInstance inst.status.instanceID = Except.ok r)
    (hcode : r.statusCode = 404)
    (s : KSecret) (hsec : env.secretGet (connectionSecretName inst) = SecretGetResult.found s)
    (ref : OwnerReference) (rest : List OwnerReference)
    (href : s.ownerReferences = ref :: rest) :
    (ref.uid = inst.metadata.uid → env.deleteSecret = Except.ok () →
      (reconcile env inst).1 =
        some ⟨{ inst with status.instanceID := "", status.connectionSecret := "" },
          ⟨true, none⟩, none⟩ ∧
      Effect.secretDelete (connectionSecretName inst) ∈ (reconcile env inst).2) ∧
    (ref.uid ≠ inst.metadata.uid →
      (reconcile env inst).1 = some ⟨inst, ⟨false, none⟩,
        some ("failed to delete secret, owner uid " ++ ref.uid ++ " does not match")⟩ ∧
      ∀ n, Effect.secretDelete n ∉ (reconcile env inst).2) := by
  have heq : httpClient env inst = (Except.ok (), [Effect.secretGet inst.spec.secret.name]) := by
    rw [Prod.ext_iff]
    exact ⟨hcred, httpClient_snd env inst⟩
  have hrec : reconcile env inst =
      ((boundPath env inst).1,
        Effect.secretGet inst.spec.secret.name :: (boundPath env inst).2) := by
    unfold reconcile
    rw [heq]
    dsimp only
    rw [if_pos hid]
    rfl
  have hbp : boundPath env inst = ((notFoundCleanup env inst).1,
      Effect.apiGet inst.status.instanceID :: (notFoundCleanup env inst).2) := by
    unfold boundPath
    rw [hget]
    dsimp only
    rw [if_pos hcode]
    rfl
  constructor
  · intro huid hdel
    have hnf : notFoundCleanup env inst =
        (some ⟨{ inst with status.instanceID := "", status.connectionSecret := "" },
          ⟨true, none⟩, none⟩,
         [Effect.secretGet (connectionSecretName inst),
          Effect.secretDelete (connectionSecretName inst)]) := by
      unfold notFoundCleanup
      dsimp only
      rw [hsec]
      dsimp only
      rw [href]
      dsimp only
      rw [if_neg (by simp [huid])]
      unfold deleteThenClear
      rw [hdel]
      rfl
    rw [hrec, hbp, hnf]
    exact ⟨rfl, by simp⟩
  · intro hne
    have hnf : notFoundCleanup env inst = (some ⟨inst, ⟨false, none⟩,
        some ("failed to delete secret, owner uid " ++ ref.uid ++ " does not match")⟩,
        [Effect.secretGet (connectionSecretName inst)]) := by
      unfold notFoundCleanup
      dsimp only
      rw [hsec]
      dsimp only
      rw [href]
      dsimp only
      rw [if_pos hne]
    rw [hrec, hbp, hnf]
    refine ⟨rfl, ?_⟩
    intro n hmem
    simp at hmem

/-- Witness for C2: the 404 environment with a connection secret owned by
    the record uid; the pass deletes the secret and clears the binding. -/
theorem c2_witness :
    instB.status.instanceID ≠ "" ∧
    (reconcile env404 instB).1 =
      some ⟨{ instB with status.instanceID := "", status.connectionSecret := "" },
        ⟨true, none⟩, none⟩ ∧
    Effect.secretDelete (connectionSecretName instB) ∈ (reconcile env404 instB).2 := by
  have h := (c2_remote_missing_cleanup env404 instB (by decide) rfl ⟨404, "", none⟩ rfl rfl
      connSec rfl ⟨"v1beta1", "AuraInstance", "db1", "uid-1"⟩ [] rfl).1 rfl rfl
  exact ⟨by decide, h.1, h.2⟩

/-- C6: on a pass with empty instanceID and no name match in the tenant
    listing, exactly one create call appears in the trace, no
    connection-credential record creation precedes the create call, and a
    connection-credential record creation appears only when create answered
    202 with a parsed body. -/
theorem c6_create_once (env : Env) (inst : AuraInstance)
    (hid : inst.status.instanceID = "")
    (hcred : (httpClient env inst).1 = Except.ok ())
    (r : HttpResp (List RemoteInstance)) (l : List RemoteInstance)
    (hlist : env.listInstances inst.spec.tenantID = Except.ok r)
    (hcode : r.statusCode = 200) (hpayload : r.payload = some l)
    (hnone : l.find? (fun x => inst.metadata.name = x.name) = none) :
    (reconcile env inst).2.countP (fun e => isApiCreate e) = 1 ∧
    credPersistedOnlyAfterCreate (reconcile env inst).2 = true ∧
    (∀ n u p c ow, Effect.secretCreate n u p c ow ∈ (reconcile env inst).2 →
      ∃ cr cd, env.createInstance = Except.ok cr ∧ cr.statusCode = 202 ∧
        cr.payload = some cd) := by
  have heq : httpClient env inst = (Except.ok (), [Effect.secretGet inst.spec.secret.name]) := by
    rw [Prod.ext_iff]
    exact ⟨hcred, httpClient_snd env inst⟩
  have hrec : (reconcile env inst).2 = Effect.secretGet inst.spec.secret.name ::
      Effect.apiList inst.spec.tenantID :: (createFlow env inst).2 := by
    unfold reconcile
    rw [heq]
    dsimp only
    rw [if_neg (by simp [hid])]
    unfold unboundPath
    rw [hlist]
    dsimp only
    rw [if_neg (by simp [hcode]), hpayload]
    dsimp only
    rw [hnone]
    rfl
  rw [hrec]
  rcases hcf : env.createInstance with msg | cr
  · have hc2 : (createFlow env inst).2 = [Effect.apiCreate ⟨inst.spec.cloudProvider,
        inst.spec.memory, inst.metadata.name, inst.spec.region, inst.spec.tenantID,
        inst.spec.tier, inst.spec.neo4jVersion, inst.spec.vectorOptimized,
        inst.spec.graphAnalyticsPlugin⟩] := by
      unfold createFlow
      rw [hcf]
      rfl
    rw [hc2]
    refine ⟨rfl, rfl, ?_⟩
    intro n u p c ow hmem
    simp at hmem
  · by_cases h202 : cr.statusCode = 202
    · rcases hp : cr.payload with _ | cd
      · have hc2 : (createFlow env inst).2 = [Effect.apiCreate ⟨inst.spec.cloudProvider,
            inst.spec.memory, inst.metadata.name, inst.spec.region, inst.spec.tenantID,
            inst.spec.tier, inst.spec.neo4jVersion, inst.spec.vectorOptimized,
            inst.spec.graphAnalyticsPlugin⟩] := by
          unfold createFlow
          rw [hcf]
          dsimp only
          rw [if_neg (by simp [h202]), hp]
          rfl
        rw [hc2]
        refine ⟨rfl, rfl, ?_⟩
        intro n u p c ow hmem
        simp at hmem
      · have hc2 : (createFlow env inst).2 = [Effect.apiCreate ⟨inst.spec.cloudProvider,
            inst.spec.memory, inst.metadata.name, inst.spec.region, inst.spec.tenantID,
            inst.spec.tier, inst.spec.neo4jVersion, inst.spec.vectorOptimized,
            inst.spec.graphAnalyticsPlugin⟩,
            Effect.secretCreate (connectionSecretName inst) cd.username cd.password
              cd.connectionUrl inst.metadata.uid] := by
          unfold createFlow
          rw [hcf]
          dsimp only
          rw [if_neg (by simp [h202]), hp]
          dsimp only
          rcases hcs : env.createSecret with m2 | u2
          · rfl
          · rfl
        rw [hc2]
        refine ⟨rfl, rfl, ?_⟩
        intro n u p c ow hmem
        exact ⟨cr, cd, rfl, h202, hp⟩
    · have hc2 : (createFlow env inst).2 = [Effect.apiCreate ⟨inst.spec.cloudProvider,
          inst.spec.memory, inst.metadata.name, inst.spec.region, inst.spec.tenantID,
          inst.spec.tier, inst.spec.neo4jVersion, inst.spec.vectorOptimized,
          inst.spec.graphAnalyticsPlugin⟩] := by
        unfold createFlow
        rw [hcf]
        dsimp only
        rw [if_pos h202]
        rfl
      rw [hc2]
      refine ⟨rfl, rfl, ?_⟩
      intro n u p c ow hmem
      simp at hmem

/-- Witness for C6: the empty tenant listing leads to exactly one create
    call and the credential record persisted only after it. -/
theorem c6_witness :
    inst0.status.instanceID = "" ∧
    (reconcile env0 inst0).2.countP (fun e => isApiCreate e) = 1 ∧
    credPersistedOnlyAfterCreate (reconcile env0 inst0).2 = true := by
  have h := c6_create_once env0 inst0 rfl rfl ⟨200, "", some []⟩ [] rfl rfl rfl rfl
  exact ⟨rfl, h.1, h.2.1⟩

theorem Reconcile_out_of_inner_error (env : Env) (inst : AuraInstance)
    (hs : inst.spec.suspend = false) (ro : RecOut) (eff : List Effect) (m : String)
    (hr : reconcile env inst = (some ro, eff)) (he : ro.error = some m)
    (o : RecOut) (ho : (Reconcile env inst).1 = some o) :
    o.inst = AuraInstanceReady
      { ro.inst with status.observedGeneration := ro.inst.metadata.generation }
      "False" "ReconciliationFailed" m := by
  unfold Reconcile at ho
  rw [if_neg (by simp [hs]), hr] at ho
  dsimp only at ho
  have hoo := Option.some.inj ho
  subst hoo
  rw [he]

/-- C1 (amended): when the connection-credential persistence fails after an
    accepted create response, the pass fails with the follow-up error,
    surfaced as Ready=false ReconciliationFailed with that message, but the
    persisted status already carries the new remote instance id in
    instanceID, so the next pass observes a bound record rather than an
    empty instanceID. -/
theorem c1_create_followup_persists_binding (env : Env) (inst : AuraInstance)
    (hs : inst.spec.suspend = false)
    (hid : inst.status.instanceID = "")
    (hcred : (httpClient env inst).1 = Except.ok ())
    (r : HttpResp (List RemoteInstance)) (l : List RemoteInstance)
    (hlist : env.listInstances inst.spec.tenantID = Except.ok r)
    (hcode : r.statusCode = 200) (hpayload : r.payload = some l)
    (hnone : l.find? (fun x => inst.metadata.name = x.name) = none)
    (cr : HttpResp CreateData) (cd : CreateData)
    (hcr : env.createInstance = Except.ok cr) (h202 : cr.statusCode = 202)
    (hcp : cr.payload = some cd)
    (m : String) (hfail : env.createSecret = Except.error m) :
    ∀ o, (Reconcile env inst).1 = some o →
      o.error = some ("failed to create connection secret: " ++ m) ∧
      o.inst.status.instanceID = cd.id ∧
      getCondition o.inst.status.conditions ConditionReady =
        some ⟨ConditionReady, "False", "ReconciliationFailed",
          "failed to create connection secret: " ++ m, o.inst.metadata.generation⟩ := by
  have heq : httpClient env inst = (Except.ok (), [Effect.secretGet inst.spec.secret.name]) := by
    rw [Prod.ext_iff]
    exact ⟨hcred, httpClient_snd env inst⟩
  have hinner : reconcile env inst =
      (some ⟨{ AuraInstanceReconciling inst "True" "CreatingInstance"
          "Creating new Aura instance" with
            status.instanceID := cd.id,
            status.connectionSecret := connectionSecretName inst },
          ⟨false, none⟩, some ("failed to create connection secret: " ++ m)⟩,
        [Effect.secretGet inst.spec.secret.name, Effect.apiList inst.spec.tenantID,
         Effect.apiCreate ⟨inst.spec.cloudProvider, inst.spec.memory, inst.metadata.name,
           inst.spec.region, inst.spec.tenantID, inst.spec.tier, inst.spec.neo4jVersion,
           inst.spec.vectorOptimized, inst.spec.graphAnalyticsPlugin⟩,
         Effect.secretCreate (connectionSecretName inst) cd.username cd.password
           cd.connectionUrl inst.metadata.uid]) := by
    unfold reconcile
    rw [heq]
    dsimp only
    rw [if_neg (by simp [hid])]
    unfold unboundPath
    rw [hlist]
    dsimp only
    rw [if_neg (by simp [hcode]), hpayload]
    dsimp only
    rw [hnone]
    unfold createFlow
    rw [hcr]
    dsimp only
    rw [if_neg (by simp [h202]), hcp]
    dsimp only
    rw [hfail]
    rfl
  intro o ho
  refine ⟨Reconcile_error_of_inner env inst hs _ _ _ hinner rfl o ho, ?_, ?_⟩
  · rw [Reconcile_out_of_inner_error env inst hs _ _ _ hinner rfl o ho]
    rfl
  · exact Reconcile_wraps_error env inst hs o _ ho
      (Reconcile_error_of_inner env inst hs _ _ _ hinner rfl o ho)

/-- Witness for C1 at the concrete environment where the secret persistence
    fails after an accepted create. -/
theorem c1_witness :
    ((Reconcile envCF inst0).1.map (fun o => o.error)) =
      some (some ("failed to create connection secret: " ++ "persist fail")) ∧
    ((Reconcile envCF inst0).1.map (fun o => o.inst.status.instanceID)) = some "i1" := by
  rcases ho : (Reconcile envCF inst0).1 with _ | o
  · have hsome : ((Reconcile envCF inst0).1).isSome = true := by decide
    rw [ho] at hsome
    simp at hsome
  · have h := c1_create_followup_persists_binding envCF inst0 rfl rfl rfl
      ⟨200, "", some []⟩ [] rfl rfl rfl rfl
      ⟨202, "", some ⟨"i1", "u", "p", "bolt"⟩⟩ ⟨"i1", "u", "p", "bolt"⟩ rfl rfl rfl
      "persist fail" rfl o ho
    simp [h.1, h.2.1]

/-- Counterexample for C1 as stated: at this input the pass after the failed
    credential persistence leaves instanceID bound to the created id i1 in
    the persisted status, so the next pass does not observe an empty
    instanceID. -/
theorem c1_counterexample :
    ((Reconcile envCF inst0).1.map (fun o => o.inst.status.instanceID)) = some "i1" ∧
    ("i1" : String) ≠ "" := by
  exact ⟨by decide, by decide⟩

theorem deleteThenClear_bounded (env : Env) (inst : AuraInstance) (csName : String)
    (eff : List Effect) (h : condsBounded inst) (o : RecOut)
    (ho : (deleteThenClear env inst csName eff).1 = some o) : condsBounded o.inst := by
  unfold deleteThenClear at ho
  dsimp only at ho
  rcases hd : env.deleteSecret with msg | u
  all_goals rw [hd] at ho
  all_goals dsimp only at ho
  all_goals have hoo := Option.some.inj ho
  all_goals subst hoo
  all_goals exact h

theorem notFoundCleanup_bounded (env : Env) (inst : AuraInstance)
    (h : condsBounded inst) (o : RecOut)
    (ho : (notFoundCleanup env inst).1 = some o) : condsBounded o.inst := by
  unfold notFoundCleanup at ho
  dsimp only at ho
  rcases hs : env.secretGet (connectionSecretName inst) with s | _ | msg
  all_goals rw [hs] at ho
  · dsimp only at ho
    rcases href : s.ownerReferences with _ | ⟨ref, rest⟩
    all_goals rw [href] at ho
    · exact deleteThenClear_bounded env inst _ _ h o ho
    · dsimp only at ho
      split at ho
      · have hoo := Option.some.inj ho
        subst hoo
        exact h
      · exact deleteThenClear_bounded env inst _ _ h o ho
  · dsimp only at ho
    have hoo := Option.some.inj ho
    subst hoo
    exact h
  · dsimp only at ho
    have hoo := Option.some.inj ho
    subst hoo
    exact h

theorem driftPatch_bounded (env : Env) (i : AuraInstance) (h : condsBounded i) (o : RecOut)
    (ho : (driftPatch env i).1 = some o) : condsBounded o.inst := by
  unfold driftPatch at ho
  dsimp only at ho
  rcases hp : env.patchInstance with msg | pr
  all_goals rw [hp] at ho
  · dsimp only at ho
    have hoo := Option.some.inj ho
    subst hoo
    exact fun u => countType_set_le_one _ _ _ _ _ _ u (h u)
  · dsimp only at ho
    split at ho
    · have hoo := Option.some.inj ho
      subst hoo
      exact fun u => countType_set_le_one _ _ _ _ _ _ u (h u)
    · have hoo := Option.some.inj ho
      subst hoo
      exact fun u => countType_set_le_one _ _ _ _ _ _ u (h u)

theorem driftCheck_bounded (env : Env) (i : AuraInstance) (d : InstanceData)
    (h : condsBounded i) (o : RecOut)
    (ho : (driftCheck env i d).1 = some o) : condsBounded o.inst := by
  unfold driftCheck at ho
  split at ho
  · exact driftPatch_bounded env i h o ho
  · rcases hg : d.graphAnalyticsPlugin with _ | gap
    all_goals rw [hg] at ho
    · simp at ho
    · dsimp only at ho
      split at ho
      · exact driftPatch_bounded env i h o ho
      · rcases hv : d.vectorOptimized with _ | vo
        all_goals rw [hv] at ho
        · simp at ho
        · dsimp only at ho
          split at ho
          · exact driftPatch_bounded env i h o ho
          · have hoo := Option.some.inj ho
            subst hoo
            exact h

theorem boundPath_bounded (env : Env) (inst : AuraInstance) (h : condsBounded inst)
    (o : RecOut) (ho : (boundPath env inst).1 = some o) : condsBounded o.inst := by
  unfold boundPath at ho
  dsimp only at ho
  rcases hg : env.getInstance inst.status.instanceID with msg | r
  all_goals rw [hg] at ho
  · dsimp only at ho
    have hoo := Option.some.inj ho
    subst hoo
    exact h
  · dsimp only at ho
    split at ho
    · dsimp only at ho
      exact notFoundCleanup_bounded env inst h o ho
    · split at ho
      · dsimp only at ho
        have hoo := Option.some.inj ho
        subst hoo
        exact h
      · rcases hp : r.payload with _ | d
        all_goals rw [hp] at ho
        · simp at ho
        · dsimp only at ho
          split at ho
          · have hoo := Option.some.inj ho
            subst hoo
            exact fun u => countType_set_le_one _ _ _ _ _ _ u (h u)
          · split at ho
            · refine driftCheck_bounded env _ d ?_ o ho
              intro u
              exact countType_set_le_one _ _ _ _ _ _ u
                (le_trans (countType_delete_le _ _ _) (h u))
            · refine driftCheck_bounded env _ d ?_ o ho
              intro u
              exact countType_set_le_one _ _ _ _ _ _ u (h u)

theorem createFlow_bounded (env : Env) (inst : AuraInstance) (h : condsBounded inst)
    (o : RecOut) (ho : (createFlow env inst).1 = some o) : condsBounded o.inst := by
  have h2 : condsBounded (AuraInstanceReconciling inst "True" "CreatingInstance"
      "Creating new Aura instance") := fun u => countType_set_le_one _ _ _ _ _ _ u (h u)
  unfold createFlow at ho
  dsimp only at ho
  rcases hc : env.createInstance with msg | cr
  all_goals rw [hc] at ho
  · dsimp only at ho
    have hoo := Option.some.inj ho
    subst hoo
    exact h2
  · dsimp only at ho
    split at ho
    · have hoo := Option.some.inj ho
      subst hoo
      exact h2
    · rcases hp : cr.payload with _ | cd
      all_goals rw [hp] at ho
      · simp at ho
      · dsimp only at ho
        rcases hcs : env.createSecret with m2 | u2
        all_goals rw [hcs] at ho
        all_goals dsimp only at ho
        all_goals have hoo := Option.some.inj ho
        all_goals subst hoo
        all_goals exact h2

theorem unboundPath_bounded (env : Env) (inst : AuraInstance) (h : condsBounded inst)
    (o : RecOut) (ho : (unboundPath env inst).1 = some o) : condsBounded o.inst := by
  unfold unboundPath at ho
  dsimp only at ho
  rcases hl : env.listInstances inst.spec.tenantID with msg | r
  all_goals rw [hl] at ho
  · dsimp only at ho
    have hoo := Option.some.inj ho
    subst hoo
    exact h
  · dsimp only at ho
    split at ho
    · dsimp only at ho
      have hoo := Option.some.inj ho
      subst hoo
      exact h
    · rcases hp : r.payload with _ | l
      all_goals rw [hp] at ho
      · simp at ho
      · dsimp only at ho
        rcases hf : l.find? (fun ri => inst.metadata.name = ri.name) with _ | ri
        all_goals rw [hf] at ho
        · dsimp only at ho
          exact createFlow_bounded env inst h o ho
        · dsimp only at ho
          have hoo := Option.some.inj ho
          subst hoo
          exact h

theorem reconcile_bounded (env : Env) (inst : AuraInstance) (h : condsBounded inst)
    (o : RecOut) (ho : (reconcile env inst).1 = some o) : condsBounded o.inst := by
  unfold reconcile at ho
  rcases hh : httpClient env inst with ⟨x, eff⟩
  rw [hh] at ho
  cases x with
  | error msg =>
    dsimp only at ho
    have hoo := Option.some.inj ho
    subst hoo
    exact h
  | ok u =>
    dsimp only at ho
    split at ho
    · dsimp only at ho
      exact boundPath_bounded env inst h o ho
    · dsimp only at ho
      exact unboundPath_bounded env inst h o ho

/-- C4 (amended): every pass preserves per-type uniqueness of conditions:
    when the stored status has at most one condition per type, the status
    produced by a pass carries at most one Ready and at most one
    Reconciling condition. (A pass may produce a status with no Ready
    condition at all, as the counterexample shows.) -/
theorem c4_at_most_one_per_type (env : Env) (inst : AuraInstance)
    (h : condsBounded inst) (o : RecOut) (ho : (Reconcile env inst).1 = some o) :
    countType o.inst.status.conditions ConditionReady ≤ 1 ∧
    countType o.inst.status.conditions ConditionReconciling ≤ 1 := by
  unfold Reconcile at ho
  by_cases hs : inst.spec.suspend
  · rw [if_pos hs] at ho
    dsimp only at ho
    have hoo := Option.some.inj ho
    subst hoo
    exact ⟨h _, h _⟩
  · rw [if_neg hs] at ho
    rcases hr : reconcile env inst with ⟨ro, eff⟩
    rw [hr] at ho
    cases ro with
    | none => simp at ho
    | some o' =>
      dsimp only at ho
      have hb : condsBounded o'.inst := reconcile_bounded env inst h o' (by rw [hr])
      have hoo := Option.some.inj ho
      subst hoo
      rcases he : o'.error with _ | m
      · exact ⟨hb _, hb _⟩
      · dsimp only [AuraInstanceReady]
        exact ⟨countType_set_le_one _ _ _ _ _ _ _ (hb _),
          countType_set_le_one _ _ _ _ _ _ _ (hb _)⟩

/-- Witness for C4: the running pass on the bound record produces at most
    one condition per type. -/
theorem c4_witness :
    countType (((Reconcile envRun3 instB).1.getD
      ⟨instB, ⟨false, none⟩, none⟩).inst.status.conditions) ConditionReady ≤ 1 ∧
    countType (((Reconcile envRun3 instB).1.getD
      ⟨instB, ⟨false, none⟩, none⟩).inst.status.conditions) ConditionReconciling ≤ 1 :=
  c4_at_most_one_per_type envRun3 instB
    (fun u => by simp [instB, inst0, countType]) _ (by rfl)

/-- Counterexample for C4 as stated: the adoption pass on a fresh record
    produces a status with zero Ready conditions, not exactly one. -/
theorem c4_counterexample :
    ((Reconcile envAdopt inst0).1.map
      (fun o => countType o.inst.status.conditions ConditionReady)) = some 0 := by
  decide
